import Mathlib

/-!
Shallow embedding of the `tinyfiledialogs-rs` binding layer (`src/lib.rs`).

Each exposed operation is modelled as a pure function of its Rust arguments
plus the response the native `tinyfd_*` entry point would give for this call
(a nullable C string modelled as `Option (List Nat)` of bytes, or a plain
`Int` return code for the message box).  Every operation returns a pair:
the Rust-level outcome (`Except RustPanic α`, where `RustPanic` stands for
an aborting `unwrap`/`unimplemented!`) together with the list of native
invocations the call performed, each recording the marshalled arguments.
-/

deriving instance DecidableEq for Except

namespace Tfd

/-- The two ways the binding layer can abort: `CString::new(..).unwrap()` on
a string holding an interior null byte, and the `unimplemented!()` macro. -/
inductive RustPanic where
  | nulError
  | unimplemented
  deriving DecidableEq, Repr

/-- Rust `CString::new(s).unwrap()`: panics iff `s` holds an interior null byte
(the char `U+0000` is the only char whose UTF-8 encoding holds a zero byte),
otherwise yields the same text, to be passed as a null-terminated buffer. -/
def cstring_new (s : String) : Except RustPanic String :=
  if Char.ofNat 0 ∈ s.data then .error .nulError else .ok s

/-- A string is a valid `CString::new` input when it has no interior null. -/
def nulFree (s : String) : Prop := Char.ofNat 0 ∉ s.data

instance (s : String) : Decidable (nulFree s) := by
  unfold nulFree; infer_instance

/-- The Unicode replacement character `U+FFFD`. -/
def replChar : Char := Char.ofNat 0xFFFD

/-- Whether a byte is a UTF-8 continuation byte (`0x80 ..= 0xBF`). -/
def contByte (b : Nat) : Bool := 0x80 ≤ b && b ≤ 0xBF

/-- The valid range of the second byte of a multi-byte UTF-8 sequence,
given its lead byte (tighter than `contByte` for `E0`/`ED`/`F0`/`F4`,
ruling out overlong encodings and surrogates). -/
def validSecond (lead b : Nat) : Bool :=
  if lead = 0xE0 then 0xA0 ≤ b && b ≤ 0xBF
  else if lead = 0xED then 0x80 ≤ b && b ≤ 0x9F
  else if lead = 0xF0 then 0x90 ≤ b && b ≤ 0xBF
  else if lead = 0xF4 then 0x80 ≤ b && b ≤ 0x8F
  else contByte b

/-- Worker for the lossy UTF-8 decoder, structurally recursive on a fuel
bound: every step consumes at least one byte, so fuel `= length` suffices
and the `0` case is never reached from `utf8DecodeLossy`. -/
def utf8DecodeLossyAux : Nat → List Nat → List Char
  | 0, _ => []
  | _ + 1, [] => []
  | fuel + 1, b :: rest =>
    if b < 0x80 then
      Char.ofNat b :: utf8DecodeLossyAux fuel rest
    else if 0xC2 ≤ b && b ≤ 0xDF then
      match rest with
      | [] => [replChar]
      | b1 :: rest1 =>
        if contByte b1 then
          Char.ofNat ((b - 0xC0) * 0x40 + (b1 - 0x80)) :: utf8DecodeLossyAux fuel rest1
        else
          replChar :: utf8DecodeLossyAux fuel rest
    else if 0xE0 ≤ b && b ≤ 0xEF then
      match rest with
      | [] => [replChar]
      | b1 :: rest1 =>
        if validSecond b b1 then
          match rest1 with
          | [] => [replChar]
          | b2 :: rest2 =>
            if contByte b2 then
              Char.ofNat ((b - 0xE0) * 0x1000 + (b1 - 0x80) * 0x40 + (b2 - 0x80))
                :: utf8DecodeLossyAux fuel rest2
            else
              replChar :: utf8DecodeLossyAux fuel rest1
        else
          replChar :: utf8DecodeLossyAux fuel rest
    else if 0xF0 ≤ b && b ≤ 0xF4 then
      match rest with
      | [] => [replChar]
      | b1 :: rest1 =>
        if validSecond b b1 then
          match rest1 with
          | [] => [replChar]
          | b2 :: rest2 =>
            if contByte b2 then
              match rest2 with
              | [] => [replChar]
              | b3 :: rest3 =>
                if contByte b3 then
                  Char.ofNat ((b - 0xF0) * 0x40000 + (b1 - 0x80) * 0x1000
                      + (b2 - 0x80) * 0x40 + (b3 - 0x80))
                    :: utf8DecodeLossyAux fuel rest3
                else
                  replChar :: utf8DecodeLossyAux fuel rest2
            else
              replChar :: utf8DecodeLossyAux fuel rest1
        else
          replChar :: utf8DecodeLossyAux fuel rest
    else
      replChar :: utf8DecodeLossyAux fuel rest

/-- Lossy UTF-8 decoding, `String::from_utf8_lossy` on a byte sequence:
decode UTF-8, replacing each maximal subpart of an ill-formed sequence
with `U+FFFD`. -/
def utf8DecodeLossy (bs : List Nat) : List Char := utf8DecodeLossyAux bs.length bs

/-- Rust `CStr::from_ptr(p).to_string_lossy().into_owned()`: the owned
string decoded (lossily) from the bytes behind a non-null native pointer. -/
def to_string_lossy (bs : List Nat) : String := String.mk (utf8DecodeLossy bs)

/-- Rust's `str::split` on a single separator char: splitting never yields
an empty list, an empty input yields `[[]]`, and separators at the ends
yield empty segments, exactly as `"a|".split('|') == ["a", ""]`. -/
def splitChar (sep : Char) : List Char → List (List Char)
  | [] => [[]]
  | c :: cs =>
    if c = sep then [] :: splitChar sep cs
    else
      match splitChar sep cs with
      | [] => [[c]]
      | s :: ss => (c :: s) :: ss

/-- Joining with a separator char: the left inverse of `splitChar`. -/
def joinSep (sep : Char) : List (List Char) → List Char
  | [] => []
  | [s] => s
  | s :: ss => s ++ sep :: joinSep sep ss

/-- Marshalling of a list of strings, as in
`xs.iter().map(|s| CString::new(*s).unwrap()).collect()`: the first interior
null byte panics, otherwise the same list comes back. -/
def cstring_list : List String → Except RustPanic (List String)
  | [] => .ok []
  | s :: l => do
    let c ← cstring_new s
    let cs ← cstring_list l
    pure (c :: cs)

/-- Type of message box to display (`enum MessageBox`). -/
inductive MessageBox where
  | Ok
  | OkCancel
  | YesNo
  deriving DecidableEq, Repr

/-- Generic icon to be displayed beside message box messages (`enum Icon`). -/
inductive Icon where
  | Info
  | Warning
  | Error
  | Question
  deriving DecidableEq, Repr

/-- Which button to use or which was clicked (`enum BoxButton`,
`#[repr(i32)]` with `CancelNo = 0` and `OkYes = 1`). -/
inductive BoxButton where
  | CancelNo
  | OkYes
  deriving DecidableEq, Repr

/-- The `as i32` cast of `BoxButton`. -/
def BoxButton.toInt : BoxButton → Int
  | .CancelNo => 0
  | .OkYes => 1

/-- Rust `MessageBox::to_str`. -/
def MessageBox.to_str : MessageBox → String
  | .Ok => "ok"
  | .OkCancel => "okcancel"
  | .YesNo => "yesno"

/-- Rust `Icon::to_str`. -/
def Icon.to_str : Icon → String
  | .Info => "info"
  | .Warning => "warning"
  | .Error => "error"
  | .Question => "question"

/-- Default value for the color chooser dialog (`enum DefaultColorValue`);
the `u8` components are modelled as `Nat`. -/
inductive DefaultColorValue where
  | Hex (hex : String)
  | RGB (rgb : Nat × Nat × Nat)

/-- Rust's truncating `as c_int` cast of an unsigned length (`usize as i32`
on the usual targets where `c_int` is `i32`): keep the low 32 bits and
reinterpret them as two's complement. -/
def as_c_int (n : Nat) : Int :=
  if n % 2 ^ 32 < 2 ^ 31 then ((n % 2 ^ 32 : Nat) : Int)
  else ((n % 2 ^ 32 : Nat) : Int) - 2 ^ 32

/-- One invocation of a native `tinyfd_*` entry point, recording the
marshalled arguments exactly as the binding passes them: nullable pointers
to text become `Option String`, counts are the truncating `as c_int` casts,
and the `multi` flag of the open-file dialog is the `as c_int` cast of the
bool. -/
inductive NativeCall where
  | messageBox (title message kind icon : String) (defaultButton : Int)
  | inputBox (title message : String) (defaultValue : Option String)
  | saveFileDialog (title path : String) (numPatterns : Int)
      (patterns : List String) (description : String)
  | openFileDialog (title path : String) (numPatterns : Int)
      (patterns : List String) (description : String) (multi : Int)
  | selectFolderDialog (title path : String)
  | arrayDialog (title : String) (numColumns : Int) (columns : List String)
      (numRows : Int) (cells : List String)
  | colorChooser (title : String) (defaultHex : Option String)
      (defaultRGB : Nat × Nat × Nat)
  deriving DecidableEq, Repr

/-- The outcome of a call: the Rust-level result (or the panic that aborted
it) paired with the native invocations performed. -/
abbrev CallResult (α : Type) := Except RustPanic α × List NativeCall

/-- Function `message_box`: marshals title, message, kind and icon strings, invokes
`tinyfd_messageBox`, and maps the native return code `0`/`1` back to a
`BoxButton`; any other code hits `unimplemented!()`.  `native_res` is the
`c_int` the native call returns. -/
def message_box (kind : MessageBox) (title message : String)
    (icon : Option Icon) (default_button : Option BoxButton)
    (native_res : Int) : CallResult BoxButton :=
  match (do
    let t ← cstring_new title
    let m ← cstring_new message
    let ty ← cstring_new kind.to_str
    let ic ← cstring_new (icon.getD Icon.Info).to_str
    pure (t, m, ty, ic) : Except RustPanic _) with
  | .error e => (.error e, [])
  | .ok (t, m, ty, ic) =>
    let call := NativeCall.messageBox t m ty ic
      (default_button.getD BoxButton.OkYes).toInt
    (if native_res = 0 then .ok BoxButton.CancelNo
     else if native_res = 1 then .ok BoxButton.OkYes
     else .error .unimplemented,
     [call])

/-- Function `input_box_impl`: marshals title, message and the optional default,
invokes `tinyfd_inputBox` (a null default pointer when no default), and
decodes a non-null result lossily; a null result is `None`. -/
def input_box_impl (title message : String) (defaultValue : Option String)
    (native_res : Option (List Nat)) : CallResult (Option String) :=
  match (do
    let t ← cstring_new title
    let m ← cstring_new message
    let d ← match defaultValue with
            | some d => Except.map some (cstring_new d)
            | none => .ok none
    pure (t, m, d) : Except RustPanic _) with
  | .error e => (.error e, [])
  | .ok (t, m, d) =>
    (.ok (native_res.map to_string_lossy), [NativeCall.inputBox t m d])

/-- Function `input_box`: normalizes an absent default to `Some("")` via
`default.or(Some(""))` before delegating to `input_box_impl`. -/
def input_box (title message : String) (defaultValue : Option String)
    (native_res : Option (List Nat)) : CallResult (Option String) :=
  input_box_impl title message (defaultValue.or (some "")) native_res

/-- Function `password_box`: delegates to `input_box_impl` with no default. -/
def password_box (title message : String)
    (native_res : Option (List Nat)) : CallResult (Option String) :=
  input_box_impl title message none native_res

/-- The filter argument of the file dialogs: an optional pair of glob
patterns and a description. -/
abbrev Filter := Option (List String × String)

/-- Function `save_file_dialog_impl`: marshals title, path, description
(`filter.map_or("", |f| f.1)`) and the pattern list
(`filter.map_or(vec![], ..)`), invokes `tinyfd_saveFileDialog` with the
pattern count, and decodes a non-null result lossily. -/
def save_file_dialog_impl (title path : String) (filter : Filter)
    (native_res : Option (List Nat)) : CallResult (Option String) :=
  match (do
    let t ← cstring_new title
    let p ← cstring_new path
    let des ← cstring_new ((filter.map (·.2)).getD "")
    let pats ← cstring_list ((filter.map (·.1)).getD [])
    pure (t, p, des, pats) : Except RustPanic _) with
  | .error e => (.error e, [])
  | .ok (t, p, des, pats) =>
    (.ok (native_res.map to_string_lossy),
     [NativeCall.saveFileDialog t p (as_c_int pats.length) pats des])

/-- Function `save_file_dialog_with_filter`. -/
def save_file_dialog_with_filter (title path : String)
    (filter_patterns : List String) (description : String)
    (native_res : Option (List Nat)) : CallResult (Option String) :=
  save_file_dialog_impl title path (some (filter_patterns, description)) native_res

/-- Function `save_file_dialog`. -/
def save_file_dialog (title path : String)
    (native_res : Option (List Nat)) : CallResult (Option String) :=
  save_file_dialog_impl title path none native_res

/-- Function `open_file_dialog_impl`: marshals like the save dialog, invokes
`tinyfd_openFileDialog` with `multi as c_int`, and on a non-null result
decodes it lossily, then either splits it on `'|'` (multi) or wraps the
whole string in a one-element list. -/
def open_file_dialog_impl (title path : String) (filter : Filter)
    (multi : Bool) (native_res : Option (List Nat)) :
    CallResult (Option (List String)) :=
  match (do
    let t ← cstring_new title
    let p ← cstring_new path
    let des ← cstring_new ((filter.map (·.2)).getD "")
    let pats ← cstring_list ((filter.map (·.1)).getD [])
    pure (t, p, des, pats) : Except RustPanic _) with
  | .error e => (.error e, [])
  | .ok (t, p, des, pats) =>
    (.ok (native_res.map fun bs =>
        let result := to_string_lossy bs
        if multi then (splitChar ('|' : Char) result.data).map String.mk
        else [result]),
     [NativeCall.openFileDialog t p (as_c_int pats.length) pats des
       (if multi then 1 else 0)])

/-- Function `open_file_dialog`: the single-file variant, `multi = false` and
`.and_then(|v| v.into_iter().next())` on the resulting list. -/
def open_file_dialog (title path : String) (filter : Filter)
    (native_res : Option (List Nat)) : CallResult (Option String) :=
  let r := open_file_dialog_impl title path filter false native_res
  (r.1.map fun v => v.bind List.head?, r.2)

/-- Function `open_file_dialog_multi`: `multi = true`. -/
def open_file_dialog_multi (title path : String) (filter : Filter)
    (native_res : Option (List Nat)) : CallResult (Option (List String)) :=
  open_file_dialog_impl title path filter true native_res

/-- Function `select_folder_dialog`. -/
def select_folder_dialog (title path : String)
    (native_res : Option (List Nat)) : CallResult (Option String) :=
  match (do
    let t ← cstring_new title
    let p ← cstring_new path
    pure (t, p) : Except RustPanic _) with
  | .error e => (.error e, [])
  | .ok (t, p) =>
    (.ok (native_res.map to_string_lossy), [NativeCall.selectFolderDialog t p])

/-- Function `list_dialog_impl`, the `#[cfg(not(windows))]` version: marshals the
title first, returns early with `None` when the column list is empty, then
marshals columns and cells and invokes `tinyfd_arrayDialog` with the row
count `cells.len() / columns.len()`. -/
def list_dialog_impl (title : String) (columns : List String)
    (cells : Option (List String)) (native_res : Option (List Nat)) :
    CallResult (Option String) :=
  match cstring_new title with
  | .error e => (.error e, [])
  | .ok t =>
    if columns.isEmpty then (.ok none, [])
    else
      match (do
        let cols ← cstring_list columns
        let cs ← cstring_list (cells.getD [])
        pure (cols, cs) : Except RustPanic _) with
      | .error e => (.error e, [])
      | .ok (cols, cs) =>
        (.ok (native_res.map to_string_lossy),
         [NativeCall.arrayDialog t (as_c_int cols.length) cols
           (as_c_int (cs.length / cols.length)) cs])

/-- Function `list_dialog_impl`, the `#[cfg(windows)]` version: `unimplemented!()`
unconditionally, before anything else happens. -/
def list_dialog_impl_windows (_title : String) (_columns : List String)
    (_cells : Option (List String)) : CallResult (Option String) :=
  (.error .unimplemented, [])

/-- Function `list_dialog`: dispatches to the `cfg`-selected implementation; the
platform is made explicit as an `isWindows` flag. -/
def list_dialog (isWindows : Bool) (title : String) (columns : List String)
    (cells : Option (List String)) (native_res : Option (List Nat)) :
    CallResult (Option String) :=
  if isWindows then list_dialog_impl_windows title columns cells
  else list_dialog_impl title columns cells native_res

/-- Function `color_chooser_dialog`: a `Hex` default is marshalled as the hex string
plus the `rubbish` all-zero RGB triple, an `RGB` default as a null hex
pointer plus the triple; `tinyfd_colorChooser` writes the chosen color into
an out triple (second component of `native_res`) and returns a nullable hex
string (first component), decoded lossily when non-null. -/
def color_chooser_dialog (title : String) (defaultValue : DefaultColorValue)
    (native_res : Option (List Nat) × (Nat × Nat × Nat)) :
    CallResult (Option (String × (Nat × Nat × Nat))) :=
  match cstring_new title with
  | .error e => (.error e, [])
  | .ok t =>
    let rubbish : Nat × Nat × Nat := (0, 0, 0)
    match (match defaultValue with
           | .Hex hex => Except.map (fun h => (some h, rubbish)) (cstring_new hex)
           | .RGB rgb => .ok (none, rgb) : Except RustPanic _) with
    | .error e => (.error e, [])
    | .ok (hexD, rgbD) =>
      (.ok (native_res.1.map fun bs => (to_string_lossy bs, native_res.2)),
       [NativeCall.colorChooser t hexD rgbD])

/-! ### Marshalling lemmas -/

theorem cstring_new_ok {s : String} (h : nulFree s) : cstring_new s = .ok s := by
  unfold cstring_new; exact if_neg h

theorem cstring_new_nul {s : String} (h : Char.ofNat 0 ∈ s.data) :
    cstring_new s = .error .nulError := by
  unfold cstring_new; exact if_pos h

theorem cstring_new_cases (s : String) :
    cstring_new s = .ok s ∨ cstring_new s = .error .nulError := by
  unfold cstring_new; split <;> simp

theorem except_bind_ok {α β : Type} (a : α) (f : α → Except RustPanic β) :
    (Except.ok a : Except RustPanic α) >>= f = f a := rfl

theorem except_bind_error {α β : Type} (e : RustPanic) (f : α → Except RustPanic β) :
    (Except.error e : Except RustPanic α) >>= f = .error e := rfl

theorem except_fmap_ok {α β : Type} (a : α) (f : α → β) :
    f <$> (Except.ok a : Except RustPanic α) = .ok (f a) := rfl

theorem except_fmap_error {α β : Type} (e : RustPanic) (f : α → β) :
    f <$> (Except.error e : Except RustPanic α) = .error e := rfl

theorem except_map_ok {α β : Type} (a : α) (f : α → β) :
    Except.map f (Except.ok a : Except RustPanic α) = .ok (f a) := rfl

theorem except_map_error {α β : Type} (e : RustPanic) (f : α → β) :
    Except.map f (Except.error e : Except RustPanic α) = .error e := rfl

theorem cstring_list_ok : ∀ {l : List String}, (∀ s ∈ l, nulFree s) →
    cstring_list l = .ok l
  | [], _ => rfl
  | s :: l, h => by
    have hs : cstring_new s = .ok s := cstring_new_ok (h s (by simp))
    have hl : cstring_list l = .ok l :=
      cstring_list_ok (fun x hx => h x (by simp [hx]))
    simp [cstring_list, hs, hl, except_bind_ok]

/-- Eta for the `String` structure. -/
theorem string_mk_data (s : String) : String.mk s.data = s := rfl

/-! ### Lemmas about splitting on a separator char -/

theorem splitChar_ne_nil (sep : Char) (cs : List Char) : splitChar sep cs ≠ [] := by
  induction cs with
  | nil => simp [splitChar]
  | cons c cs ih =>
    by_cases hc : c = sep
    · simp [splitChar, hc]
    · simp only [splitChar, if_neg hc]
      cases h : splitChar sep cs <;> simp

theorem splitChar_of_not_mem {sep : Char} :
    ∀ {cs : List Char}, sep ∉ cs → splitChar sep cs = [cs]
  | [], _ => rfl
  | c :: cs, h => by
    have hc : c ≠ sep := fun hcs => h (hcs ▸ List.mem_cons_self c cs)
    have hcs : sep ∉ cs := fun hm => h (List.mem_cons_of_mem c hm)
    simp only [splitChar, if_neg hc, splitChar_of_not_mem hcs]

theorem joinSep_splitChar (sep : Char) (cs : List Char) :
    joinSep sep (splitChar sep cs) = cs := by
  induction cs with
  | nil => rfl
  | cons c cs ih =>
    by_cases hc : c = sep
    · subst hc
      simp only [splitChar, if_pos rfl]
      rcases h : splitChar c cs with _ | ⟨s, ss⟩
      · exact absurd h (splitChar_ne_nil c cs)
      · rw [h] at ih
        simpa [joinSep] using ih
    · simp only [splitChar, if_neg hc]
      rcases h : splitChar sep cs with _ | ⟨s, ss⟩
      · exact absurd h (splitChar_ne_nil sep cs)
      · rw [h] at ih
        cases ss with
        | nil => simp only [joinSep] at ih ⊢; simp [ih]
        | cons a l =>
          simp only [joinSep] at ih ⊢
          rw [← ih]; rfl

theorem splitChar_not_mem (sep : Char) (cs : List Char) :
    ∀ l ∈ splitChar sep cs, sep ∉ l := by
  induction cs with
  | nil =>
    intro l hl
    simp [splitChar] at hl
    simp [hl]
  | cons c cs ih =>
    intro l hl
    by_cases hc : c = sep
    · simp only [splitChar, if_pos hc, List.mem_cons] at hl
      rcases hl with rfl | hl
      · simp
      · exact ih l hl
    · simp only [splitChar, if_neg hc] at hl
      rcases h : splitChar sep cs with _ | ⟨s, ss⟩
      · exact absurd h (splitChar_ne_nil sep cs)
      · rw [h] at hl
        rcases List.mem_cons.mp hl with rfl | hl
        · intro hmem
          rcases List.mem_cons.mp hmem with rfl | hmem
          · exact hc rfl
          · exact ih s (h ▸ List.mem_cons_self s ss) hmem
        · exact ih l (h ▸ List.mem_cons_of_mem s hl)

/-! ### Null-freedom predicates for compound arguments -/

/-- Every string of an optional default is null-free. -/
def optNulFree (d : Option String) : Prop := ∀ s ∈ d, nulFree s

/-- Every string the filter marshalling touches is null-free (for an absent
filter this holds trivially: no patterns and the empty description). -/
def filterNulFree (f : Filter) : Prop :=
  (∀ s ∈ (f.map (·.1)).getD [], nulFree s) ∧ nulFree ((f.map (·.2)).getD "")

/-! ### Behaviour of the operations under successful marshalling -/

theorem input_box_impl_ok {title message : String} {d : Option String}
    (ht : nulFree title) (hm : nulFree message) (hd : optNulFree d)
    (native_res : Option (List Nat)) :
    input_box_impl title message d native_res =
      (.ok (native_res.map to_string_lossy), [NativeCall.inputBox title message d]) := by
  cases d with
  | none =>
    simp [input_box_impl, cstring_new_ok ht, cstring_new_ok hm,
      except_bind_ok, except_fmap_ok]
  | some s =>
    have hs : nulFree s := hd s (by simp)
    simp [input_box_impl, cstring_new_ok ht, cstring_new_ok hm, cstring_new_ok hs,
      except_bind_ok, except_fmap_ok, except_map_ok]

theorem save_file_dialog_impl_ok {title path : String} {filter : Filter}
    (ht : nulFree title) (hp : nulFree path) (hf : filterNulFree filter)
    (native_res : Option (List Nat)) :
    save_file_dialog_impl title path filter native_res =
      (.ok (native_res.map to_string_lossy),
       [NativeCall.saveFileDialog title path
         (as_c_int ((filter.map (·.1)).getD []).length)
         ((filter.map (·.1)).getD []) ((filter.map (·.2)).getD "")]) := by
  obtain ⟨h1, h2⟩ := hf
  simp [save_file_dialog_impl, cstring_new_ok ht, cstring_new_ok hp, cstring_new_ok h2,
    cstring_list_ok h1, except_bind_ok, except_fmap_ok]

theorem open_file_dialog_impl_ok {title path : String} {filter : Filter} (multi : Bool)
    (ht : nulFree title) (hp : nulFree path) (hf : filterNulFree filter)
    (native_res : Option (List Nat)) :
    open_file_dialog_impl title path filter multi native_res =
      (.ok (native_res.map fun bs =>
          let result := to_string_lossy bs
          if multi then (splitChar ('|' : Char) result.data).map String.mk
          else [result]),
       [NativeCall.openFileDialog title path
         (as_c_int ((filter.map (·.1)).getD []).length)
         ((filter.map (·.1)).getD []) ((filter.map (·.2)).getD "")
         (if multi then 1 else 0)]) := by
  obtain ⟨h1, h2⟩ := hf
  simp [open_file_dialog_impl, cstring_new_ok ht, cstring_new_ok hp, cstring_new_ok h2,
    cstring_list_ok h1, except_bind_ok, except_fmap_ok]

theorem select_folder_dialog_ok {title path : String}
    (ht : nulFree title) (hp : nulFree path) (native_res : Option (List Nat)) :
    select_folder_dialog title path native_res =
      (.ok (native_res.map to_string_lossy),
       [NativeCall.selectFolderDialog title path]) := by
  simp [select_folder_dialog, cstring_new_ok ht, cstring_new_ok hp,
    except_bind_ok, except_fmap_ok]

theorem list_dialog_impl_ok {title : String} {columns : List String}
    {cells : Option (List String)}
    (ht : nulFree title) (hne : columns ≠ []) (hcols : ∀ s ∈ columns, nulFree s)
    (hcells : ∀ s ∈ cells.getD [], nulFree s) (native_res : Option (List Nat)) :
    list_dialog_impl title columns cells native_res =
      (.ok (native_res.map to_string_lossy),
       [NativeCall.arrayDialog title (as_c_int columns.length) columns
         (as_c_int ((cells.getD []).length / columns.length)) (cells.getD [])]) := by
  have hemp : columns.isEmpty = false := by
    cases columns with
    | nil => exact absurd rfl hne
    | cons a l => rfl
  simp [list_dialog_impl, cstring_new_ok ht, hemp, cstring_list_ok hcols,
    cstring_list_ok hcells, except_bind_ok, except_fmap_ok]

/-! ### Claims -/

/-- C1, counterexample: the claim fails when the native string holds a pipe.
With native output `"a|b"` (bytes `[97, 124, 98]`), the single-file variant
returns `"a|b"` whole, while the first element of the multi-variant's list
is `"a"`. -/
theorem open_file_single_differs_from_multi_head_on_pipe :
    (open_file_dialog "t" "p" none (some [97, 124, 98])).1 ≠
      Except.map (fun v => v.bind List.head?)
        (open_file_dialog_multi "t" "p" none (some [97, 124, 98])).1 := by
  decide

/-- C1 (amended): whenever the decoded native string holds no pipe
character, `open_file_dialog` returns the first element of the list
`open_file_dialog_multi` would return for the same native output (namely
the whole string); given a null native output both return absent. -/
theorem open_file_single_head_of_multi_amended (title path : String)
    (filter : Filter) (bs : List Nat)
    (ht : nulFree title) (hp : nulFree path) (hf : filterNulFree filter)
    (hpipe : ('|' : Char) ∉ (to_string_lossy bs).data) :
    (open_file_dialog title path filter (some bs)).1 =
      Except.map (fun v => v.bind List.head?)
        (open_file_dialog_multi title path filter (some bs)).1 ∧
    (open_file_dialog title path filter (some bs)).1 =
      Except.ok (some (to_string_lossy bs)) ∧
    (open_file_dialog title path filter none).1 = Except.ok none ∧
    (open_file_dialog_multi title path filter none).1 = Except.ok none := by
  have hsplit : splitChar ('|' : Char) (to_string_lossy bs).data =
      [(to_string_lossy bs).data] := splitChar_of_not_mem hpipe
  refine ⟨?_, ?_, ?_, ?_⟩ <;>
    simp [open_file_dialog, open_file_dialog_multi,
      open_file_dialog_impl_ok false ht hp hf (some bs),
      open_file_dialog_impl_ok true ht hp hf (some bs),
      open_file_dialog_impl_ok false ht hp hf none,
      open_file_dialog_impl_ok true ht hp hf none,
      hsplit, except_map_ok, string_mk_data]

/-- C1, witness for the amended theorem at `"a"` (bytes `[97]`). -/
theorem open_file_single_head_of_multi_amended_witness :
    nulFree "t" ∧ nulFree "p" ∧ filterNulFree none ∧
    ('|' : Char) ∉ (to_string_lossy [97]).data ∧
    ((open_file_dialog "t" "p" none (some [97])).1 =
      Except.map (fun v => v.bind List.head?)
        (open_file_dialog_multi "t" "p" none (some [97])).1 ∧
    (open_file_dialog "t" "p" none (some [97])).1 =
      Except.ok (some (to_string_lossy [97])) ∧
    (open_file_dialog "t" "p" none none).1 = Except.ok none ∧
    (open_file_dialog_multi "t" "p" none none).1 = Except.ok none) :=
  ⟨by decide, by decide, ⟨by simp, by decide⟩, by decide,
   open_file_single_head_of_multi_amended "t" "p" none [97]
     (by decide) (by decide) ⟨by simp, by decide⟩ (by decide)⟩

/-- C2, counterexample: on the Windows target, `list_dialog` with an empty
column list does not return absent — it faults with `unimplemented!()`
before looking at any argument. -/
theorem list_dialog_windows_empty_columns_faults :
    list_dialog true "t" [] none none = (Except.error RustPanic.unimplemented, []) ∧
    (Except.error RustPanic.unimplemented : Except RustPanic (Option String)) ≠
      Except.ok none := by
  exact ⟨rfl, by decide⟩

/-- C2 (amended): on non-Windows targets, for every null-free title and
every cells argument, `list_dialog` with an empty column list returns
absent immediately, performs no native invocation, and does not fault —
uniformly in whatever the native layer would have answered. -/
theorem list_dialog_empty_columns_absent_nonwindows (title : String)
    (cells : Option (List String)) (native_res : Option (List Nat))
    (ht : nulFree title) :
    list_dialog false title [] cells native_res = (Except.ok none, []) := by
  simp [list_dialog, list_dialog_impl, cstring_new_ok ht]

/-- C2, witness for the amended theorem. -/
theorem list_dialog_empty_columns_absent_nonwindows_witness :
    nulFree "t" ∧
    list_dialog false "t" [] (some ["a", "b"]) none = (Except.ok none, []) :=
  ⟨by decide,
   list_dialog_empty_columns_absent_nonwindows "t" (some ["a", "b"]) none (by decide)⟩

/-- C3, counterexample: an empty (but non-null) native string does not map
to absent — `open_file_dialog_multi` yields `some [""]`, a one-element
list holding the empty string. -/
theorem open_file_multi_empty_native_not_absent :
    (open_file_dialog_multi "t" "p" none (some ([] : List Nat))).1 =
      Except.ok (some [""]) ∧
    Except.ok (some [""]) ≠
      (Except.ok none : Except RustPanic (Option (List String))) := by
  exact ⟨by decide, by decide⟩

/-- C3 (amended): a null native pointer maps to absent, and a non-null
native result — however empty — always yields a nonempty list, never the
empty list and never absent. -/
theorem open_file_multi_null_absent_and_list_nonempty (title path : String)
    (filter : Filter)
    (ht : nulFree title) (hp : nulFree path) (hf : filterNulFree filter) :
    (open_file_dialog_multi title path filter none).1 = Except.ok none ∧
    ∀ bs : List Nat, ∃ l : List String,
      (open_file_dialog_multi title path filter (some bs)).1 =
        Except.ok (some l) ∧ l ≠ [] := by
  constructor
  · simp [open_file_dialog_multi, open_file_dialog_impl_ok true ht hp hf none]
  · intro bs
    refine ⟨(splitChar ('|' : Char) (to_string_lossy bs).data).map String.mk, ?_, ?_⟩
    · simp [open_file_dialog_multi, open_file_dialog_impl_ok true ht hp hf (some bs)]
    · simpa using splitChar_ne_nil ('|' : Char) (to_string_lossy bs).data

/-- C3, witness for the amended theorem. -/
theorem open_file_multi_null_absent_and_list_nonempty_witness :
    nulFree "t" ∧ nulFree "p" ∧ filterNulFree none ∧
    ((open_file_dialog_multi "t" "p" none none).1 = Except.ok none ∧
    ∀ bs : List Nat, ∃ l : List String,
      (open_file_dialog_multi "t" "p" none (some bs)).1 =
        Except.ok (some l) ∧ l ≠ []) :=
  ⟨by decide, by decide, ⟨by simp, by decide⟩,
   open_file_multi_null_absent_and_list_nonempty "t" "p" none
     (by decide) (by decide) ⟨by simp, by decide⟩⟩

/-- C4: for a call whose strings marshal, a native return code of `0`
yields `CancelNo`, `1` yields `OkYes`, and any other code aborts through
`unimplemented!()` rather than producing a result. -/
theorem message_box_code_mapping (kind : MessageBox) (title message : String)
    (icon : Option Icon) (db : Option BoxButton) (code : Int)
    (ht : nulFree title) (hm : nulFree message) :
    (message_box kind title message icon db 0).1 = Except.ok BoxButton.CancelNo ∧
    (message_box kind title message icon db 1).1 = Except.ok BoxButton.OkYes ∧
    (code ≠ 0 → code ≠ 1 →
      (message_box kind title message icon db code).1 =
        Except.error RustPanic.unimplemented) := by
  have hty : cstring_new kind.to_str = .ok kind.to_str :=
    cstring_new_ok (by cases kind <;> decide)
  have hic : cstring_new (icon.getD Icon.Info).to_str =
      .ok (icon.getD Icon.Info).to_str :=
    cstring_new_ok (by cases icon.getD Icon.Info <;> decide)
  refine ⟨?_, ?_, fun h0 h1 => ?_⟩
  · simp [message_box, cstring_new_ok ht, cstring_new_ok hm, hty, hic,
      except_bind_ok, except_fmap_ok]
  · simp [message_box, cstring_new_ok ht, cstring_new_ok hm, hty, hic,
      except_bind_ok, except_fmap_ok]
  · simp [message_box, cstring_new_ok ht, cstring_new_ok hm, hty, hic,
      except_bind_ok, except_fmap_ok, h0, h1]

/-- C4, witness at native code `2`. -/
theorem message_box_code_mapping_witness :
    nulFree "t" ∧ nulFree "m" ∧
    ((message_box MessageBox.YesNo "t" "m" none none 0).1 =
        Except.ok BoxButton.CancelNo ∧
     (message_box MessageBox.YesNo "t" "m" none none 1).1 =
        Except.ok BoxButton.OkYes ∧
     ((2 : Int) ≠ 0 → (2 : Int) ≠ 1 →
       (message_box MessageBox.YesNo "t" "m" none none 2).1 =
         Except.error RustPanic.unimplemented)) :=
  ⟨by decide, by decide,
   message_box_code_mapping MessageBox.YesNo "t" "m" none none 2
     (by decide) (by decide)⟩

/-- C5: `open_file_dialog_multi` splits a non-null native string on the
pipe character in order — the returned segments are pipe-free and joining
them back with a pipe gives back exactly the decoded native string — and
concretely native `"a|b|c"` yields `["a", "b", "c"]` while the pipe-less
native `"a"` yields `["a"]`. -/
theorem open_file_multi_pipe_split (title path : String) (filter : Filter)
    (bs : List Nat)
    (ht : nulFree title) (hp : nulFree path) (hf : filterNulFree filter) :
    (∃ l : List String,
      (open_file_dialog_multi title path filter (some bs)).1 =
        Except.ok (some l) ∧
      joinSep ('|' : Char) (l.map String.data) = (to_string_lossy bs).data ∧
      ∀ seg ∈ l, ('|' : Char) ∉ seg.data) ∧
    (open_file_dialog_multi title path filter (some [97, 124, 98, 124, 99])).1 =
      Except.ok (some ["a", "b", "c"]) ∧
    (open_file_dialog_multi title path filter (some [97])).1 =
      Except.ok (some ["a"]) := by
  refine ⟨⟨(splitChar ('|' : Char) (to_string_lossy bs).data).map String.mk,
    ?_, ?_, ?_⟩, ?_, ?_⟩
  · simp [open_file_dialog_multi, open_file_dialog_impl_ok true ht hp hf (some bs)]
  · rw [List.map_map]
    have hco : (String.data ∘ String.mk) = id := funext fun l => rfl
    rw [hco, List.map_id, joinSep_splitChar]
  · intro seg hseg
    rw [List.mem_map] at hseg
    obtain ⟨l0, hl0, rfl⟩ := hseg
    exact splitChar_not_mem ('|' : Char) (to_string_lossy bs).data l0 hl0
  · simp only [open_file_dialog_multi,
      open_file_dialog_impl_ok true ht hp hf (some [97, 124, 98, 124, 99])]
    decide
  · simp only [open_file_dialog_multi,
      open_file_dialog_impl_ok true ht hp hf (some [97])]
    decide

/-- C5, witness. -/
theorem open_file_multi_pipe_split_witness :
    nulFree "t" ∧ nulFree "p" ∧ filterNulFree none ∧
    ((∃ l : List String,
      (open_file_dialog_multi "t" "p" none (some [97, 124, 98])).1 =
        Except.ok (some l) ∧
      joinSep ('|' : Char) (l.map String.data) = (to_string_lossy [97, 124, 98]).data ∧
      ∀ seg ∈ l, ('|' : Char) ∉ seg.data) ∧
    (open_file_dialog_multi "t" "p" none (some [97, 124, 98, 124, 99])).1 =
      Except.ok (some ["a", "b", "c"]) ∧
    (open_file_dialog_multi "t" "p" none (some [97])).1 =
      Except.ok (some ["a"])) :=
  ⟨by decide, by decide, ⟨by simp, by decide⟩,
   open_file_multi_pipe_split "t" "p" none [97, 124, 98]
     (by decide) (by decide) ⟨by simp, by decide⟩⟩

/-- C6: for every exposed operation, a title or message holding an
embedded null byte makes the call abort with a panic before any native
entry point is invoked: the outcome is the `nulError` panic (on the
Windows target the list dialog aborts even earlier, with
`unimplemented!()`), and the trace of native invocations is empty. -/
theorem nul_byte_fails_fast_before_native (title message : String)
    (ht : Char.ofNat 0 ∈ title.data) (hm : Char.ofNat 0 ∈ message.data) :
    (∀ (kind : MessageBox) (icon : Option Icon) (db : Option BoxButton)
       (code : Int) (m2 : String),
      message_box kind title m2 icon db code = (Except.error RustPanic.nulError, [])) ∧
    (∀ (kind : MessageBox) (icon : Option Icon) (db : Option BoxButton)
       (code : Int) (t2 : String),
      message_box kind t2 message icon db code = (Except.error RustPanic.nulError, [])) ∧
    (∀ (m2 : String) (d : Option String) (nres : Option (List Nat)),
      input_box title m2 d nres = (Except.error RustPanic.nulError, [])) ∧
    (∀ (t2 : String) (d : Option String) (nres : Option (List Nat)),
      input_box t2 message d nres = (Except.error RustPanic.nulError, [])) ∧
    (∀ (m2 : String) (nres : Option (List Nat)),
      password_box title m2 nres = (Except.error RustPanic.nulError, [])) ∧
    (∀ (t2 : String) (nres : Option (List Nat)),
      password_box t2 message nres = (Except.error RustPanic.nulError, [])) ∧
    (∀ (p : String) (nres : Option (List Nat)),
      save_file_dialog title p nres = (Except.error RustPanic.nulError, [])) ∧
    (∀ (p : String) (pats : List String) (des : String) (nres : Option (List Nat)),
      save_file_dialog_with_filter title p pats des nres =
        (Except.error RustPanic.nulError, [])) ∧
    (∀ (p : String) (f : Filter) (nres : Option (List Nat)),
      open_file_dialog title p f nres = (Except.error RustPanic.nulError, [])) ∧
    (∀ (p : String) (f : Filter) (nres : Option (List Nat)),
      open_file_dialog_multi title p f nres = (Except.error RustPanic.nulError, [])) ∧
    (∀ (p : String) (nres : Option (List Nat)),
      select_folder_dialog title p nres = (Except.error RustPanic.nulError, [])) ∧
    (∀ (cols : List String) (cells : Option (List String)) (nres : Option (List Nat)),
      list_dialog false title cols cells nres = (Except.error RustPanic.nulError, [])) ∧
    (∀ (isWin : Bool) (cols : List String) (cells : Option (List String))
       (nres : Option (List Nat)),
      (list_dialog isWin title cols cells nres).2 = [] ∧
      ∃ e, (list_dialog isWin title cols cells nres).1 = Except.error e) ∧
    (∀ (d : DefaultColorValue) (nres : Option (List Nat) × (Nat × Nat × Nat)),
      color_chooser_dialog title d nres = (Except.error RustPanic.nulError, [])) := by
  have hT : cstring_new title = .error .nulError := cstring_new_nul ht
  have hM : cstring_new message = .error .nulError := cstring_new_nul hm
  refine ⟨?_, ?_, ?_, ?_, ?_, ?_, ?_, ?_, ?_, ?_, ?_, ?_, ?_, ?_⟩
  · intro kind icon db code m2
    simp [message_box, hT, except_bind_error]
  · intro kind icon db code t2
    rcases cstring_new_cases t2 with h | h <;>
      simp [message_box, h, hM, except_bind_ok, except_bind_error]
  · intro m2 d nres
    simp [input_box, input_box_impl, hT, except_bind_error]
  · intro t2 d nres
    rcases cstring_new_cases t2 with h | h <;>
      simp [input_box, input_box_impl, h, hM, except_bind_ok, except_bind_error]
  · intro m2 nres
    simp [password_box, input_box_impl, hT, except_bind_error]
  · intro t2 nres
    rcases cstring_new_cases t2 with h | h <;>
      simp [password_box, input_box_impl, h, hM, except_bind_ok, except_bind_error]
  · intro p nres
    simp [save_file_dialog, save_file_dialog_impl, hT, except_bind_error]
  · intro p pats des nres
    simp [save_file_dialog_with_filter, save_file_dialog_impl, hT, except_bind_error]
  · intro p f nres
    simp [open_file_dialog, open_file_dialog_impl, hT, except_bind_error,
      except_map_error]
  · intro p f nres
    simp [open_file_dialog_multi, open_file_dialog_impl, hT, except_bind_error]
  · intro p nres
    simp [select_folder_dialog, hT, except_bind_error]
  · intro cols cells nres
    simp [list_dialog, list_dialog_impl, hT]
  · intro isWin cols cells nres
    cases isWin with
    | true =>
      exact ⟨rfl, RustPanic.unimplemented, rfl⟩
    | false =>
      refine ⟨?_, RustPanic.nulError, ?_⟩ <;>
        simp [list_dialog, list_dialog_impl, hT]
  · intro d nres
    simp [color_chooser_dialog, hT]

/-- C6, witness with the one-char title and message `"\x00"`. -/
theorem nul_byte_fails_fast_before_native_witness :
    Char.ofNat 0 ∈ ("\x00" : String).data ∧
    input_box "\x00" "m" none none = (Except.error RustPanic.nulError, []) ∧
    message_box MessageBox.Ok "t" "\x00" none none 0 =
      (Except.error RustPanic.nulError, []) :=
  ⟨by decide,
   (nul_byte_fails_fast_before_native "\x00" "\x00"
     (by decide) (by decide)).2.2.1 "m" none none,
   (nul_byte_fails_fast_before_native "\x00" "\x00"
     (by decide) (by decide)).2.1 MessageBox.Ok none none 0 "t"⟩

/-- C7: `input_box` with no default behaves identically (same result, same
native invocation) to `input_box` with an explicit empty-string default —
the absent default is normalized to `""` and reaches the native layer as
the non-null default `some ""` — whereas `password_box` passes a true
absent default (`none`, a null pointer) to the native layer. -/
theorem input_box_default_normalization (title message : String)
    (nres : Option (List Nat)) (ht : nulFree title) (hm : nulFree message) :
    (∀ d : Option (List Nat),
      input_box title message none d = input_box title message (some "") d) ∧
    (input_box title message none nres).2 =
      [NativeCall.inputBox title message (some "")] ∧
    (password_box title message nres).2 =
      [NativeCall.inputBox title message none] := by
  have h0 : optNulFree (some "") := by
    intro s hs
    simp only [Option.mem_def, Option.some.injEq] at hs
    subst hs
    decide
  have h1 : optNulFree none := by
    intro s hs
    simp at hs
  refine ⟨fun d => rfl, ?_, ?_⟩
  · rw [input_box]
    rw [show (Option.or none (some "") : Option String) = some "" from rfl]
    rw [input_box_impl_ok ht hm h0 nres]
  · rw [password_box, input_box_impl_ok ht hm h1 nres]

/-- C7, witness. -/
theorem input_box_default_normalization_witness :
    nulFree "t" ∧ nulFree "m" ∧
    ((∀ d : Option (List Nat),
      input_box "t" "m" none d = input_box "t" "m" (some "") d) ∧
    (input_box "t" "m" none (some [97])).2 =
      [NativeCall.inputBox "t" "m" (some "")] ∧
    (password_box "t" "m" (some [97])).2 =
      [NativeCall.inputBox "t" "m" none]) :=
  ⟨by decide, by decide,
   input_box_default_normalization "t" "m" (some [97]) (by decide) (by decide)⟩

/-- C8: `color_chooser_dialog` with a `Hex` default passes the hex string
together with the all-zero RGB triple in the raw-RGB input slot, with an
`RGB` default passes a null hex pointer together with that triple, and in
both cases a non-null native result yields both the result hex string and
the RGB triple the native call wrote out. -/
theorem color_chooser_defaults_marshalling (title hex : String)
    (rgb : Nat × Nat × Nat) (bs : List Nat) (out : Nat × Nat × Nat)
    (nres : Option (List Nat) × (Nat × Nat × Nat))
    (ht : nulFree title) (hh : nulFree hex) :
    (color_chooser_dialog title (DefaultColorValue.Hex hex) nres).2 =
      [NativeCall.colorChooser title (some hex) (0, 0, 0)] ∧
    (color_chooser_dialog title (DefaultColorValue.RGB rgb) nres).2 =
      [NativeCall.colorChooser title none rgb] ∧
    (color_chooser_dialog title (DefaultColorValue.Hex hex) (some bs, out)).1 =
      Except.ok (some (to_string_lossy bs, out)) ∧
    (color_chooser_dialog title (DefaultColorValue.RGB rgb) (some bs, out)).1 =
      Except.ok (some (to_string_lossy bs, out)) := by
  refine ⟨?_, ?_, ?_, ?_⟩ <;>
    simp [color_chooser_dialog, cstring_new_ok ht, cstring_new_ok hh,
      except_map_ok]

/-- C8, witness. -/
theorem color_chooser_defaults_marshalling_witness :
    nulFree "t" ∧ nulFree "#FF0000" ∧
    ((color_chooser_dialog "t" (DefaultColorValue.Hex "#FF0000")
        (some [97], (7, 8, 9))).2 =
      [NativeCall.colorChooser "t" (some "#FF0000") (0, 0, 0)] ∧
    (color_chooser_dialog "t" (DefaultColorValue.RGB (1, 2, 3))
        (some [97], (7, 8, 9))).2 =
      [NativeCall.colorChooser "t" none (1, 2, 3)] ∧
    (color_chooser_dialog "t" (DefaultColorValue.Hex "#FF0000")
        (some [97], (7, 8, 9))).1 =
      Except.ok (some (to_string_lossy [97], (7, 8, 9))) ∧
    (color_chooser_dialog "t" (DefaultColorValue.RGB (1, 2, 3))
        (some [97], (7, 8, 9))).1 =
      Except.ok (some (to_string_lossy [97], (7, 8, 9)))) :=
  ⟨by decide, by decide,
   color_chooser_defaults_marshalling "t" "#FF0000" (1, 2, 3) [97] (7, 8, 9)
     (some [97], (7, 8, 9)) (by decide) (by decide)⟩

/-- The `as c_int` cast is the identity below `2 ^ 31`. -/
theorem as_c_int_of_lt {n : Nat} (h : n < 2 ^ 31) : as_c_int n = (n : Int) := by
  have h32 : n % 2 ^ 32 = n := Nat.mod_eq_of_lt (lt_trans h (by norm_num))
  unfold as_c_int
  rw [h32, if_pos h]

/-- C9, counterexample: the row count reaches the native layer only after
the truncating `as c_int` cast, so it is not always the floor quotient.
With one column and `2 ^ 31` cells the floor quotient is `2 ^ 31`, but the
wrapped `c_int` the native layer receives is `-(2 ^ 31)`. -/
theorem list_dialog_row_count_wraps_at_two_pow_31 :
    (list_dialog false "t" ["a"] (some (List.replicate (2 ^ 31) "x")) none).2 =
      [NativeCall.arrayDialog "t" 1 ["a"] (-(2 ^ 31) : Int)
        (List.replicate (2 ^ 31) "x")] ∧
    ((some (List.replicate (2 ^ 31) "x")).getD []).length /
      (["a"] : List String).length = 2 ^ 31 ∧
    (-(2 ^ 31) : Int) ≠ ((2 ^ 31 : Nat) : Int) := by
  have hcells : ∀ s ∈ (some (List.replicate (2 ^ 31) "x")).getD [], nulFree s := by
    intro s hs
    simp only [Option.getD_some] at hs
    rw [List.eq_of_mem_replicate hs]
    decide
  have hcols : ∀ s ∈ (["a"] : List String), nulFree s := by
    intro s hs
    fin_cases hs
    decide
  have h := list_dialog_impl_ok (show nulFree "t" by decide)
    (show (["a"] : List String) ≠ [] by decide) hcols hcells none
  have hone : as_c_int (["a"] : List String).length = 1 := by
    norm_num [as_c_int]
  have hlen : ((some (List.replicate (2 ^ 31) "x")).getD []).length /
      (["a"] : List String).length = 2 ^ 31 := by
    rw [Option.getD_some, List.length_replicate,
      show (["a"] : List String).length = 1 from rfl, Nat.div_one]
  have hbig : as_c_int (2 ^ 31) = -(2 ^ 31) := by
    unfold as_c_int
    rw [Nat.mod_eq_of_lt (by norm_num : (2 : Nat) ^ 31 < 2 ^ 32)]
    rw [if_neg (lt_irrefl _)]
    norm_num
  have hlen2 : (List.replicate (2 ^ 31) "x").length /
      (["a"] : List String).length = 2 ^ 31 := by
    rw [List.length_replicate, show (["a"] : List String).length = 1 from rfl,
      Nat.div_one]
  refine ⟨?_, hlen, by norm_num⟩
  simp only [list_dialog, Bool.false_eq_true, if_false, h, Option.getD_some, hone]
  rw [hlen2, hbig]

/-- C9 (amended): on non-Windows targets, `list_dialog` with a non-empty
column list passes the native layer a row count equal to the truncating
`as c_int` cast of the floor quotient of the cell count by the column
count — hence to the floor quotient itself whenever that quotient is below
`2 ^ 31` — with no exact-multiple check, and an absent cells argument is
passed as zero rows over the empty cell list. -/
theorem list_dialog_row_count_floor_div (title : String)
    (columns : List String) (cells : Option (List String))
    (nres : Option (List Nat))
    (ht : nulFree title) (hne : columns ≠ [])
    (hcols : ∀ s ∈ columns, nulFree s)
    (hcells : ∀ s ∈ cells.getD [], nulFree s)
    (hq : (cells.getD []).length / columns.length < 2 ^ 31) :
    (list_dialog false title columns cells nres).2 =
      [NativeCall.arrayDialog title (as_c_int columns.length) columns
        (((cells.getD []).length / columns.length : Nat) : Int)
        (cells.getD [])] ∧
    (list_dialog false title columns none nres).2 =
      [NativeCall.arrayDialog title (as_c_int columns.length) columns 0 []] := by
  constructor
  · simp [list_dialog, list_dialog_impl_ok ht hne hcols hcells nres,
      as_c_int_of_lt hq]
  · have hnil : ∀ s ∈ (none : Option (List String)).getD [], nulFree s := by
      intro s hs
      simp at hs
    have h0 : as_c_int 0 = 0 := by decide
    simp [list_dialog, list_dialog_impl_ok ht hne hcols hnil nres, h0]

/-- C9, witness: three cells over two columns yield row count `1`
(floor of `3 / 2`), with no fault on the non-multiple cell count. -/
theorem list_dialog_row_count_floor_div_witness :
    nulFree "t" ∧ (["a", "b"] : List String) ≠ [] ∧
    (3 : Nat) / 2 < 2 ^ 31 ∧
    ((list_dialog false "t" ["a", "b"] (some ["x", "y", "z"]) none).2 =
      [NativeCall.arrayDialog "t" (as_c_int 2) ["a", "b"] 1 ["x", "y", "z"]] ∧
    (list_dialog false "t" ["a", "b"] none none).2 =
      [NativeCall.arrayDialog "t" (as_c_int 2) ["a", "b"] 0 []]) := by
  refine ⟨by decide, by decide, by decide, ?_⟩
  have h := list_dialog_row_count_floor_div "t" ["a", "b"]
    (some ["x", "y", "z"]) none (by decide) (by decide)
    (by intro s hs; fin_cases hs <;> decide)
    (by intro s hs; fin_cases hs <;> decide)
    (by decide)
  simpa using h

/-- C10: for every non-null native result, every string-returning
operation decodes the native bytes with the total lossy UTF-8 conversion
into an owned string, so a non-null native result never yields a failure
or an absent result — and an invalid byte such as `0xFF` decodes to the
replacement character rather than failing. -/
theorem lossy_decode_non_null_never_absent (title message path : String)
    (d : Option String) (filter : Filter) (bs : List Nat)
    (ht : nulFree title) (hm : nulFree message) (hp : nulFree path)
    (hd : optNulFree d) (hf : filterNulFree filter) :
    (input_box_impl title message d (some bs)).1 =
      Except.ok (some (to_string_lossy bs)) ∧
    (save_file_dialog_impl title path filter (some bs)).1 =
      Except.ok (some (to_string_lossy bs)) ∧
    (∀ multi : Bool, ∃ l : List String,
      (open_file_dialog_impl title path filter multi (some bs)).1 =
        Except.ok (some l)) ∧
    (select_folder_dialog title path (some bs)).1 =
      Except.ok (some (to_string_lossy bs)) ∧
    (∀ (columns : List String) (cells : Option (List String)),
      columns ≠ [] → (∀ s ∈ columns, nulFree s) →
      (∀ s ∈ cells.getD [], nulFree s) →
      (list_dialog false title columns cells (some bs)).1 =
        Except.ok (some (to_string_lossy bs))) ∧
    (∀ out : Nat × Nat × Nat,
      (color_chooser_dialog title (DefaultColorValue.Hex "") (some bs, out)).1 =
        Except.ok (some (to_string_lossy bs, out))) ∧
    to_string_lossy [0xFF] = String.mk [replChar] := by
  refine ⟨?_, ?_, ?_, ?_, ?_, ?_, by decide⟩
  · simp [input_box_impl_ok ht hm hd (some bs)]
  · simp [save_file_dialog_impl_ok ht hp hf (some bs)]
  · intro multi
    refine ⟨if multi then (splitChar ('|' : Char) (to_string_lossy bs).data).map
      String.mk else [to_string_lossy bs], ?_⟩
    cases multi <;>
      simp [open_file_dialog_impl_ok false ht hp hf (some bs),
        open_file_dialog_impl_ok true ht hp hf (some bs)]
  · simp [select_folder_dialog_ok ht hp (some bs)]
  · intro columns cells hne hcols hcells
    simp [list_dialog, list_dialog_impl_ok ht hne hcols hcells (some bs)]
  · intro out
    simp [color_chooser_dialog, cstring_new_ok ht,
      cstring_new_ok (show nulFree "" by decide), except_map_ok]

/-- C10, witness at the single invalid byte `0xFF`. -/
theorem lossy_decode_non_null_never_absent_witness :
    nulFree "t" ∧ nulFree "m" ∧ nulFree "p" ∧ optNulFree none ∧
    filterNulFree none ∧
    (input_box_impl "t" "m" none (some [0xFF])).1 =
      Except.ok (some (to_string_lossy [0xFF])) ∧
    to_string_lossy [0xFF] = String.mk [replChar] :=
  ⟨by decide, by decide, by decide, by intro s hs; simp at hs,
   ⟨by simp, by decide⟩,
   (lossy_decode_non_null_never_absent "t" "m" "p" none none [0xFF]
     (by decide) (by decide) (by decide) (by intro s hs; simp at hs)
     ⟨by simp, by decide⟩).1,
   (lossy_decode_non_null_never_absent "t" "m" "p" none none [0xFF]
     (by decide) (by decide) (by decide) (by intro s hs; simp at hs)
     ⟨by simp, by decide⟩).2.2.2.2.2.2⟩

end Tfd
